import Mathlib

/-!
# RentEase — verification of the cascading user-removal engine and form actions

Shallow embedding of the RentEase React application's store-facing logic:

* `handleRemoveUser` (the cascading deletion engine) — modelled as a sequential
  state transformer over an explicit `Store` (the three Firestore collections),
  parametrised by a fault oracle `fault : Op → Bool` that decides which store
  operations (queries and document deletions) fail.  Firestore semantics used:
  `deleteDoc` on an absent document is a no-op success; a rejected promise inside
  `Promise.all` does not prevent sibling deletions from being issued; any thrown
  error lands in the surrounding `catch`, which stops all further steps.
  The run records a trace of issued operations, the resulting store, the locally
  cached user list (the `setUsers` view) and whether the `try` block completed.

* `loginAction`, `registerAction`, `newFlatAction` — the form actions, with the
  external pieces (JS `Number` coercion, `calculateAge`, date-range check,
  `localStorage` user id, store faults) passed in as explicit parameters.
-/

namespace RentEase

/-- A user document in the `users` collection (fields from `registerAction`). -/
structure UserDoc where
  id : String
  firstName : String
  lastName : String
  email : String
  password : String
  birthDate : String
  favoriteFlats : List String
  isAdmin : Bool
  createdAt : Nat
deriving DecidableEq

/-- A flat document, restricted to the fields the cascade touches. -/
structure FlatDoc where
  id : String
  ownerID : String
deriving DecidableEq

/-- A message document, restricted to the fields the cascade touches. -/
structure MsgDoc where
  id : String
  senderId : String
  flatID : String
deriving DecidableEq

/-- The document store: the three Firestore collections. -/
structure Store where
  users : List UserDoc
  flats : List FlatDoc
  messages : List MsgDoc
deriving DecidableEq

/-- A store operation issued by `handleRemoveUser`: document deletions and
equality queries, in the order the code performs them. -/
inductive Op where
  | deleteUser (id : String)
  | deleteMsg (id : String)
  | deleteFlat (id : String)
  | queryMsgsBySender (uid : String)
  | queryFlatsByOwner (uid : String)
  | queryMsgsByFlat (fid : String)
deriving DecidableEq

/-- Result of one `Promise.all` batch of deletions over a snapshot of ids:
the surviving documents, the delete operations issued (every sibling is issued
even when one of them fails), and whether the whole batch resolved. -/
structure BatchResult (α : Type) where
  docs : List α
  ops : List Op
  ok : Bool
deriving DecidableEq

/-- `Promise.all` over `deleteDoc(db,'messages',id)` for each id in the
snapshot `ids`: each deletion whose own fault flag is clear takes effect,
all are issued, and the batch resolves only when none faulted. -/
def batchDeleteMsgs (fault : Op → Bool) (ids : List String) (msgs : List MsgDoc) :
    BatchResult MsgDoc :=
  { docs := msgs.filter fun m => !(decide (m.id ∈ ids) && !fault (Op.deleteMsg m.id))
    ops := ids.map Op.deleteMsg
    ok := ids.all fun i => !fault (Op.deleteMsg i) }

/-- `Promise.all` over `deleteDoc(db,'flats',id)` for each id in the snapshot. -/
def batchDeleteFlats (fault : Op → Bool) (ids : List String) (flats : List FlatDoc) :
    BatchResult FlatDoc :=
  { docs := flats.filter fun f => !(decide (f.id ∈ ids) && !fault (Op.deleteFlat f.id))
    ops := ids.map Op.deleteFlat
    ok := ids.all fun i => !fault (Op.deleteFlat i) }

/-- Step 4 of `handleRemoveUser`: the sequential `for (const flatId of flatIds)`
loop that, for each owned flat, queries the `messages` collection for
`flatID == flatId` and batch-deletes the snapshot.  A faulted query throws,
ending the loop; a faulted batch ends it after the siblings were issued. -/
def deleteFlatMessages (fault : Op → Bool) : List String → List MsgDoc → BatchResult MsgDoc
  | [], msgs => ⟨msgs, [], true⟩
  | fid :: rest, msgs =>
    if fault (Op.queryMsgsByFlat fid) then
      ⟨msgs, [Op.queryMsgsByFlat fid], false⟩
    else
      let ids := (msgs.filter fun m => m.flatID == fid).map fun m => m.id
      let b := batchDeleteMsgs fault ids msgs
      if b.ok then
        let r := deleteFlatMessages fault rest b.docs
        ⟨r.docs, Op.queryMsgsByFlat fid :: (b.ops ++ r.ops), r.ok⟩
      else
        ⟨b.docs, Op.queryMsgsByFlat fid :: b.ops, false⟩

/-- Observable outcome of one `handleRemoveUser` call: final store, trace of
issued store operations, the locally cached user list after the call
(`setUsers` view), and whether the `try` block ran to completion. -/
structure RunResult where
  store : Store
  trace : List Op
  localUsers : List UserDoc
  success : Bool
deriving DecidableEq

/-- `handleRemoveUser(userId, setUsers)` from the source, step by step:
1. `deleteDoc(db,'users',userId)` — the user document is deleted FIRST;
2. query `messages` by `senderId == userId`, batch-delete the snapshot;
3. query `flats` by `ownerID == userId` (snapshot of owned flat ids);
4. for each owned flat id, query `messages` by `flatID` and batch-delete;
5. batch-delete the owned flats from the step-3 snapshot;
6. `setUsers(prev => prev.filter(u => u.id !== userId))`.
Any fault throws into the `catch`, which alerts and performs no further
store operation and no `setUsers` update. -/
def handleRemoveUser (fault : Op → Bool) (userId : String) (s : Store)
    (localUsers : List UserDoc) : RunResult :=
  if fault (Op.deleteUser userId) then
    ⟨s, [Op.deleteUser userId], localUsers, false⟩
  else
    let s1 : Store := { s with users := s.users.filter fun u => u.id != userId }
    if fault (Op.queryMsgsBySender userId) then
      ⟨s1, [Op.deleteUser userId, Op.queryMsgsBySender userId], localUsers, false⟩
    else
      let senderIds := (s1.messages.filter fun m => m.senderId == userId).map fun m => m.id
      let b2 := batchDeleteMsgs fault senderIds s1.messages
      let s2 : Store := { s1 with messages := b2.docs }
      let tr2 := Op.deleteUser userId :: Op.queryMsgsBySender userId :: b2.ops
      if !b2.ok then
        ⟨s2, tr2, localUsers, false⟩
      else if fault (Op.queryFlatsByOwner userId) then
        ⟨s2, tr2 ++ [Op.queryFlatsByOwner userId], localUsers, false⟩
      else
        let flatIds := (s2.flats.filter fun f => f.ownerID == userId).map fun f => f.id
        let r3 := deleteFlatMessages fault flatIds s2.messages
        let s3 : Store := { s2 with messages := r3.docs }
        let tr3 := tr2 ++ Op.queryFlatsByOwner userId :: r3.ops
        if !r3.ok then
          ⟨s3, tr3, localUsers, false⟩
        else
          let b4 := batchDeleteFlats fault flatIds s3.flats
          let s4 : Store := { s3 with flats := b4.docs }
          let tr4 := tr3 ++ b4.ops
          if !b4.ok then
            ⟨s4, tr4, localUsers, false⟩
          else
            ⟨s4, tr4, localUsers.filter fun u => u.id != userId, true⟩

/-- The fault-free oracle: every store operation succeeds. -/
def noFault : Op → Bool := fun _ => false

/-! ## Form-field validation shared by the login and register actions -/

/-- JS regex `\w` word character: ASCII letter, ASCII digit or underscore. -/
def isWordChar (c : Char) : Bool :=
  (decide ('a' ≤ c) && decide (c ≤ 'z')) || (decide ('A' ≤ c) && decide (c ≤ 'Z'))
    || (decide ('0' ≤ c) && decide (c ≤ '9')) || c == '_'

/-- JS regex `[a-zA-Z]`. -/
def isAsciiLetter (c : Char) : Bool :=
  (decide ('a' ≤ c) && decide (c ≤ 'z')) || (decide ('A' ≤ c) && decide (c ≤ 'Z'))

/-- JS regex `\d`. -/
def isAsciiDigit (c : Char) : Bool := decide ('0' ≤ c) && decide (c ≤ '9')

/-- JS regex `\s` whitespace class, modelled as `Char.isWhitespace`. -/
def jsWs (c : Char) : Bool := c.isWhitespace

/-- The email regex `[^\s@]+@[^\s@]+\.[^\s@]+` anchored at both ends, from the
login and register forms: the string must split as local-part, one at-sign,
rest, with both parts nonempty and free of whitespace and at-signs, and the
rest must contain a dot strictly inside (non-first, non-last position). -/
def emailOk (s : String) : Bool :=
  match s.toList.splitOn '@' with
  | [a, r] =>
    (!a.isEmpty) && a.all (fun c => !jsWs c) && (!r.isEmpty) && r.all (fun c => !jsWs c)
      && ((r.drop 1).dropLast.contains '.')
  | _ => false

/-- `validateField('email', v)` from the login form (same rule in
`registerAction`): empty or regex-failing emails are rejected. -/
def emailError (v : String) : Option String :=
  if emailOk v then none else some "Email must be in a valid format."

/-- `validateField('password', v)` from the login form (same rule in
`registerAction`): at least 6 characters, then must contain an ASCII letter,
an ASCII digit, and a character that is neither a word character nor
whitespace.  The empty string is caught by the length test. -/
def passwordError (v : String) : Option String :=
  if v.toList.length < 6 then
    some "Password must be at least 6 characters long."
  else if !(v.toList.any isAsciiLetter) || !(v.toList.any isAsciiDigit)
      || !(v.toList.any fun c => !isWordChar c && !jsWs c) then
    some "Password must include letters, numbers, and a special character."
  else none

/-! ## `loginAction` -/

/-- Return value of `loginAction`: field-level validation errors, a general
error (the `errors.general` message), or success with the user document id. -/
inductive LoginResult where
  | validationErrors (emailErr pwErr : Option String)
  | generalError (msg : String)
  | success (userID : String)
deriving DecidableEq

/-- `loginAction` from the login form.  `queryFault` models the Firestore
lookup throwing (the `catch` branch).  The store query by email returns every
user with that email; the code reads `userSnapshot.docs[0]`, modelled as
`List.find?`, and compares its stored password with the submitted one. -/
def loginAction (queryFault : Bool) (users : List UserDoc) (email password : String) :
    LoginResult :=
  let eErr := emailError email
  let pErr := passwordError password
  if eErr.isSome || pErr.isSome then
    .validationErrors eErr pErr
  else if queryFault then
    .generalError "Login failed. Please try again later."
  else
    match users.find? (fun u => u.email == email) with
    | none => .generalError "Invalid credentials."
    | some u =>
      if u.password == password then .success u.id
      else .generalError "Invalid credentials."

/-! ## `registerAction` -/

/-- The six form fields submitted to `registerAction`. -/
structure RegInput where
  firstName : String
  lastName : String
  email : String
  password : String
  confirmPassword : String
  birthDate : String
deriving DecidableEq

/-- The `errors` object built by `registerAction`; a missing key is `none`. -/
structure RegErrors where
  firstName : Option String := none
  lastName : Option String := none
  email : Option String := none
  password : Option String := none
  confirmPassword : Option String := none
  birthDate : Option String := none
  general : Option String := none
deriving DecidableEq

/-- `Object.keys(errors).length > 0` is false: every key is absent. -/
def RegErrors.isEmpty (e : RegErrors) : Bool :=
  e.firstName.isNone && e.lastName.isNone && e.email.isNone && e.password.isNone
    && e.confirmPassword.isNone && e.birthDate.isNone && e.general.isNone

/-- First/last name rule: missing or shorter than 2 characters is an error. -/
def nameError (v : String) (msg : String) : Option String :=
  if v.toList.length < 2 then some msg else none

/-- Birth-date rule from `registerAction`.  `ageOf` abstracts the external
`calculateAge` utility together with `new Date(v)` parsing (not part of the
reviewed sources): `none` models `isNaN(new Date(v).getTime())`; the empty
string is rejected first, as by `!birthDate`. -/
def birthDateError (ageOf : String → Option Int) (v : String) : Option String :=
  if v == "" then some "Birth date is required."
  else
    match ageOf v with
    | none => some "Birth date is required."
    | some age =>
      if age < 18 || age > 120 then some "Age must be between 18 and 120." else none

/-- Return value of `registerAction`: an `errors` payload or `success: true`. -/
inductive RegisterResult where
  | failure (e : RegErrors)
  | ok
deriving DecidableEq

/-- The `errors` object assembled by the validation phase of `registerAction`. -/
def regErrorsOf (ageOf : String → Option Int) (inp : RegInput) : RegErrors :=
  { firstName := nameError inp.firstName "First name must be at least 2 characters."
    lastName := nameError inp.lastName "Last name must be at least 2 characters."
    email := emailError inp.email
    password := passwordError inp.password
    confirmPassword :=
      if inp.password != inp.confirmPassword then some "Passwords do not match." else none
    birthDate := birthDateError ageOf inp.birthDate }

/-- `registerAction` from the register form.  Validation runs first and
returns the error object with the users collection untouched.  Then, inside
the `try` block: the duplicate-email lookup (`queryFault` models it throwing),
the duplicate-email rejection, and `addDoc` (`addFault` models it throwing),
which appends a document with `favoriteFlats: []`, `isAdmin: false`, a fresh
store-assigned id `newId` and `createdAt` timestamp `now`. -/
def registerAction (ageOf : String → Option Int) (queryFault addFault : Bool)
    (users : List UserDoc) (inp : RegInput) (newId : String) (now : Nat) :
    RegisterResult × List UserDoc :=
  let e : RegErrors := regErrorsOf ageOf inp
  if !e.isEmpty then
    (.failure e, users)
  else if queryFault then
    (.failure { general := some "Registration failed. Please try again." }, users)
  else if users.any (fun u => u.email == inp.email) then
    (.failure { email := some "This email is not available. Please try another or log in if you already have an account." }, users)
  else if addFault then
    (.failure { general := some "Registration failed. Please try again." }, users)
  else
    (.ok, users ++ [{ id := newId, firstName := inp.firstName, lastName := inp.lastName,
                      email := inp.email, password := inp.password,
                      birthDate := inp.birthDate, favoriteFlats := [], isAdmin := false,
                      createdAt := now }])

/-! ## `newFlatAction` -/

/-- The form fields submitted to `newFlatAction`.  `hasAC` is the raw checkbox
value (the code tests `=== 'on'`); `imageName` is `imageFile.name`, with the
empty string standing for a missing file or empty name. -/
structure FlatInput where
  adTitle : String
  city : String
  streetName : String
  streetNumber : String
  areaSize : String
  hasAC : String
  yearBuilt : String
  rentPrice : String
  dateAvailable : String
  imageName : String
deriving DecidableEq

/-- The `errors` object built by `newFlatAction`. -/
structure FlatErrors where
  adTitle : Option String := none
  city : Option String := none
  streetName : Option String := none
  streetNumber : Option String := none
  areaSize : Option String := none
  yearBuilt : Option String := none
  rentPrice : Option String := none
  dateAvailable : Option String := none
  image : Option String := none
  general : Option String := none
deriving DecidableEq

/-- `Object.keys(errors).length > 0` is false: every key is absent. -/
def FlatErrors.isEmpty (e : FlatErrors) : Bool :=
  e.adTitle.isNone && e.city.isNone && e.streetName.isNone && e.streetNumber.isNone
    && e.areaSize.isNone && e.yearBuilt.isNone && e.rentPrice.isNone
    && e.dateAvailable.isNone && e.image.isNone && e.general.isNone

/-- Ad-title rule: between 5 and 60 characters (missing is caught by `< 5`). -/
def adTitleError (v : String) : Option String :=
  if v.toList.length < 5 || v.toList.length > 60 then
    some "Ad title must be between 5 and 60 characters."
  else none

/-- Street-number rule: the code only tests falsiness and `isNaN`, despite the
error message.  `num` abstracts the JS `Number` coercion used by `isNaN` and
the comparison operators on strings; `none` models `NaN`. -/
def streetNumberError (num : String → Option ℚ) (v : String) : Option String :=
  if v == "" then some "Street number must be greater than zero."
  else if (num v).isNone then some "Street number must be greater than zero."
  else none

/-- Area-size rule: falsy, `NaN` or nonpositive values are rejected. -/
def areaSizeError (num : String → Option ℚ) (v : String) : Option String :=
  if v == "" then some "Area size must be a valid positive number."
  else
    match num v with
    | none => some "Area size must be a valid positive number."
    | some q =>
      if q ≤ 0 then some "Area size must be a valid positive number." else none

/-- Year-built rule: falsy, `NaN`, below 1900 or above the current year
(`new Date().getFullYear()`, passed in as `currentYear`) is rejected. -/
def yearBuiltError (num : String → Option ℚ) (currentYear : ℚ) (v : String) :
    Option String :=
  if v == "" then some "Year built must be between 1900 and the current year."
  else
    match num v with
    | none => some "Year built must be between 1900 and the current year."
    | some y =>
      if y < 1900 || y > currentYear then
        some "Year built must be between 1900 and the current year."
      else none

/-- Rent-price rule: falsy, `NaN` or nonpositive values are rejected. -/
def rentPriceError (num : String → Option ℚ) (v : String) : Option String :=
  if v == "" then some "Rent price must be greater than zero."
  else
    match num v with
    | none => some "Rent price must be greater than zero."
    | some q =>
      if q ≤ 0 then some "Rent price must be greater than zero." else none

/-- Date-available rule: required, then the today/one-year range check, whose
date arithmetic (external `getOneYearFromToday` and `Date` parsing) is
abstracted as the predicate `dateInRange`. -/
def dateAvailableError (dateInRange : String → Bool) (v : String) : Option String :=
  if v == "" then some "Date available is required."
  else if !dateInRange v then some "Date available is out of range."
  else none

/-- Image rule: a file with a nonempty name is required. -/
def imageErrorOf (v : String) : Option String :=
  if v == "" then some "Image file is required." else none

/-- The `flatData` object written to the `flats` collection on success. -/
structure FlatData where
  adTitle : String
  city : String
  streetName : String
  streetNumber : ℚ
  areaSize : ℚ
  hasAC : Bool
  yearBuilt : ℚ
  rentPrice : ℚ
  dateAvailable : String
  image : String
  createdAt : Nat
  ownerID : String
deriving DecidableEq

/-- Return value of `newFlatAction`: an `errors` payload, or `success: true`
together with the flat document that was written. -/
inductive NewFlatResult where
  | failure (e : FlatErrors)
  | ok (flat : FlatData)
deriving DecidableEq

/-- The `errors` object assembled by the validation phase of `newFlatAction`. -/
def flatErrorsOf (num : String → Option ℚ) (currentYear : ℚ)
    (dateInRange : String → Bool) (inp : FlatInput) : FlatErrors :=
  { adTitle := adTitleError inp.adTitle
    city := nameError inp.city "City name must be at least 2 characters."
    streetName := nameError inp.streetName "Street name must be at least 2 characters."
    streetNumber := streetNumberError num inp.streetNumber
    areaSize := areaSizeError num inp.areaSize
    yearBuilt := yearBuiltError num currentYear inp.yearBuilt
    rentPrice := rentPriceError num inp.rentPrice
    dateAvailable := dateAvailableError dateInRange inp.dateAvailable
    image := imageErrorOf inp.imageName }

/-- `newFlatAction` from the new-flat form.  `num` abstracts the JS `Number`
coercion (`none` is `NaN`), `currentYear` is `new Date().getFullYear()`,
`dateInRange` the date window check, `addFault` models `addDoc` throwing, and
`userID` is `localStorage.getItem('loggedInUser')`.  On success the stored
document holds the `Number(...)` coercions of the four numeric strings and
`ownerID = userID`. -/
def newFlatAction (num : String → Option ℚ) (currentYear : ℚ)
    (dateInRange : String → Bool) (addFault : Bool) (userID : String)
    (inp : FlatInput) (now : Nat) : NewFlatResult :=
  let e : FlatErrors := flatErrorsOf num currentYear dateInRange inp
  if !e.isEmpty then
    .failure e
  else if addFault then
    .failure { general := some "Failed to add flat. Please try again." }
  else
    .ok { adTitle := inp.adTitle, city := inp.city, streetName := inp.streetName,
          streetNumber := (num inp.streetNumber).getD 0,
          areaSize := (num inp.areaSize).getD 0,
          hasAC := inp.hasAC == "on",
          yearBuilt := (num inp.yearBuilt).getD 0,
          rentPrice := (num inp.rentPrice).getD 0,
          dateAvailable := inp.dateAvailable,
          image := inp.imageName,
          createdAt := now,
          ownerID := userID }

/-! ## Fixtures: the example scenario of the specification

User `u1` owns flats `f1`, `f2`; `f3` belongs to someone else.  Messages:
`m1` (sender u1, flat f3), `m2` (sender u2, flat f1), `m3` (sender u1, flat f1). -/

/-- A user document with only the id populated. -/
def demoUser (i : String) : UserDoc := ⟨i, "", "", "", "", "", [], false, 0⟩

/-- The concrete store of the example scenario. -/
def demoStore : Store :=
  { users := [demoUser "u1", demoUser "u2"]
    flats := [⟨"f1", "u1"⟩, ⟨"f2", "u1"⟩, ⟨"f3", "u9"⟩]
    messages := [⟨"m1", "u1", "f3"⟩, ⟨"m2", "u2", "f1"⟩, ⟨"m3", "u1", "f1"⟩] }

/-! ## Basic facts about the deletion batches and the per-flat loop -/

/-- Recogniser for message-deletion operations. -/
def isDeleteMsg : Op → Bool
  | .deleteMsg _ => true
  | _ => false

/-- Recogniser for flat-deletion operations. -/
def isDeleteFlat : Op → Bool
  | .deleteFlat _ => true
  | _ => false

/-- Recogniser for user-deletion operations. -/
def isDeleteUser : Op → Bool
  | .deleteUser _ => true
  | _ => false

lemma mem_of_mem_batchDeleteMsgs {fault : Op → Bool} {ids : List String}
    {msgs : List MsgDoc} {m : MsgDoc}
    (h : m ∈ (batchDeleteMsgs fault ids msgs).docs) : m ∈ msgs := by
  simp only [batchDeleteMsgs, List.mem_filter] at h
  exact h.1

lemma batchDeleteMsgs_ok_id_not_mem {fault : Op → Bool} {ids : List String}
    {msgs : List MsgDoc} {m : MsgDoc}
    (hok : (batchDeleteMsgs fault ids msgs).ok = true)
    (h : m ∈ (batchDeleteMsgs fault ids msgs).docs) : m.id ∉ ids := by
  simp only [batchDeleteMsgs, List.mem_filter] at h hok
  intro hmem
  have hf := List.all_eq_true.mp hok m.id hmem
  have h2 := h.2
  simp [hmem, hf] at h2

lemma mem_of_mem_batchDeleteFlats {fault : Op → Bool} {ids : List String}
    {flats : List FlatDoc} {f : FlatDoc}
    (h : f ∈ (batchDeleteFlats fault ids flats).docs) : f ∈ flats := by
  simp only [batchDeleteFlats, List.mem_filter] at h
  exact h.1

lemma batchDeleteFlats_ok_id_not_mem {fault : Op → Bool} {ids : List String}
    {flats : List FlatDoc} {f : FlatDoc}
    (hok : (batchDeleteFlats fault ids flats).ok = true)
    (h : f ∈ (batchDeleteFlats fault ids flats).docs) : f.id ∉ ids := by
  simp only [batchDeleteFlats, List.mem_filter] at h hok
  intro hmem
  have hf := List.all_eq_true.mp hok f.id hmem
  have h2 := h.2
  simp [hmem, hf] at h2

lemma deleteFlatMessages_docs_subset {fault : Op → Bool} :
    ∀ (fids : List String) (msgs : List MsgDoc) (m : MsgDoc),
      m ∈ (deleteFlatMessages fault fids msgs).docs → m ∈ msgs := by
  intro fids
  induction fids with
  | nil => intro msgs m hm; simpa [deleteFlatMessages] using hm
  | cons fid rest ih =>
    intro msgs m hm
    by_cases hq : fault (Op.queryMsgsByFlat fid) = true
    · simpa [deleteFlatMessages, hq] using hm
    · by_cases hb : (batchDeleteMsgs fault
          ((msgs.filter fun m => m.flatID == fid).map fun m => m.id) msgs).ok = true
      · simp only [deleteFlatMessages, hq, if_false, hb, if_true] at hm
        exact mem_of_mem_batchDeleteMsgs (ih _ m hm)
      · simp only [deleteFlatMessages, hq, if_false, hb, if_true] at hm
        exact mem_of_mem_batchDeleteMsgs hm

lemma deleteFlatMessages_ok_flat_not_mem {fault : Op → Bool} :
    ∀ (fids : List String) (msgs : List MsgDoc) (m : MsgDoc),
      (deleteFlatMessages fault fids msgs).ok = true →
      m ∈ (deleteFlatMessages fault fids msgs).docs → m.flatID ∉ fids := by
  intro fids
  induction fids with
  | nil => intro msgs m _ _; simp
  | cons fid rest ih =>
    intro msgs m hok hm
    by_cases hq : fault (Op.queryMsgsByFlat fid) = true
    · simp [deleteFlatMessages, hq] at hok
    · by_cases hb : (batchDeleteMsgs fault
          ((msgs.filter fun m => m.flatID == fid).map fun m => m.id) msgs).ok = true
      · simp only [deleteFlatMessages, hq, if_false, hb, if_true] at hok hm
        have hbd : m ∈ (batchDeleteMsgs fault
            ((msgs.filter fun m => m.flatID == fid).map fun m => m.id) msgs).docs :=
          deleteFlatMessages_docs_subset rest _ m hm
        have hrest : m.flatID ∉ rest := ih _ m hok hm
        have hid := batchDeleteMsgs_ok_id_not_mem hb hbd
        intro hcon
        rcases List.mem_cons.mp hcon with hf | hr
        · exact hid (List.mem_map.mpr
            ⟨m, List.mem_filter.mpr ⟨mem_of_mem_batchDeleteMsgs hbd, by simp [hf]⟩, rfl⟩)
        · exact hrest hr
      · simp [deleteFlatMessages, hq, hb] at hok

lemma deleteFlatMessages_ops_not_flat {fault : Op → Bool} :
    ∀ (fids : List String) (msgs : List MsgDoc) (op : Op),
      op ∈ (deleteFlatMessages fault fids msgs).ops → isDeleteFlat op = false := by
  intro fids
  induction fids with
  | nil => intro msgs op hop; simp [deleteFlatMessages] at hop
  | cons fid rest ih =>
    intro msgs op hop
    by_cases hq : fault (Op.queryMsgsByFlat fid) = true
    · simp [deleteFlatMessages, hq] at hop
      subst hop; rfl
    · by_cases hb : (batchDeleteMsgs fault
          ((msgs.filter fun m => m.flatID == fid).map fun m => m.id) msgs).ok = true
      · simp only [deleteFlatMessages, hq, hb, if_true, if_false, Bool.false_eq_true,
          List.mem_cons, List.mem_append] at hop
        rcases hop with rfl | hop | hop
        · rfl
        · simp only [batchDeleteMsgs, List.mem_map] at hop
          obtain ⟨x, _, rfl⟩ := hop
          rfl
        · exact ih _ op hop
      · simp only [deleteFlatMessages, hq, hb, if_true, if_false, Bool.false_eq_true,
          List.mem_cons] at hop
        rcases hop with rfl | hop
        · rfl
        · simp only [batchDeleteMsgs, List.mem_map] at hop
          obtain ⟨x, _, rfl⟩ := hop
          rfl

lemma batchDeleteMsgs_ops_not_flat {fault : Op → Bool} {ids : List String}
    {msgs : List MsgDoc} :
    ∀ op ∈ (batchDeleteMsgs fault ids msgs).ops, isDeleteFlat op = false := by
  intro op hop
  simp only [batchDeleteMsgs, List.mem_map] at hop
  obtain ⟨x, _, rfl⟩ := hop
  rfl

lemma batchDeleteFlats_ops_not_msg {fault : Op → Bool} {ids : List String}
    {flats : List FlatDoc} :
    ∀ op ∈ (batchDeleteFlats fault ids flats).ops, isDeleteMsg op = false := by
  intro op hop
  simp only [batchDeleteFlats, List.mem_map] at hop
  obtain ⟨x, _, rfl⟩ := hop
  rfl

/-! ## Claim C7: the cached user list is updated exactly on success -/

/-- **C7.** The locally cached user list (the `setUsers` view) has the target
user removed exactly when the cascade ran to completion without failure; on
any failure the cached list is left unchanged. -/
theorem removeUser_localView_iff_success (fault : Op → Bool) (userId : String)
    (s : Store) (localUsers : List UserDoc) :
    (handleRemoveUser fault userId s localUsers).localUsers =
      (if (handleRemoveUser fault userId s localUsers).success = true
       then localUsers.filter fun u => u.id != userId
       else localUsers) := by
  simp only [handleRemoveUser]
  split_ifs <;> simp_all

/-! ## Claim C2: behaviour when a store lookup fails -/

/-- **C2 (amended).** If the first store lookup of the cascade (messages by
sender) fails, the run aborts — no further operation is issued and failure is
reported — but the user document has already been deleted; messages, flats and
the cached view are untouched. -/
theorem removeUser_queryFailure_abort (fault : Op → Bool) (userId : String)
    (s : Store) (localUsers : List UserDoc)
    (h1 : fault (Op.deleteUser userId) = false)
    (h2 : fault (Op.queryMsgsBySender userId) = true) :
    handleRemoveUser fault userId s localUsers =
      ⟨{ s with users := s.users.filter fun u => u.id != userId },
        [Op.deleteUser userId, Op.queryMsgsBySender userId], localUsers, false⟩ := by
  simp [handleRemoveUser, h1, h2]

/-- The fault oracle that fails exactly the messages-by-sender lookup for
user `u1`. -/
def qFaultU1 : Op → Bool := fun op => op == Op.queryMsgsBySender "u1"

/-- Witness for the amended C2 at the example store. -/
theorem removeUser_queryFailure_abort_witness :
    handleRemoveUser qFaultU1 "u1" demoStore demoStore.users =
      ⟨{ demoStore with users := demoStore.users.filter fun u => u.id != "u1" },
        [Op.deleteUser "u1", Op.queryMsgsBySender "u1"], demoStore.users, false⟩ :=
  removeUser_queryFailure_abort qFaultU1 "u1" demoStore demoStore.users
    (by decide) (by decide)

/-- **C2 (counterexample).** A failing lookup does surface a failure, but the
store is *not* completely unchanged when it does: the user document was
deleted before the lookup ran. -/
theorem removeUser_queryFailure_store_changed :
    qFaultU1 (Op.queryMsgsBySender "u1") = true ∧
    (handleRemoveUser qFaultU1 "u1" demoStore demoStore.users).success = false ∧
    (handleRemoveUser qFaultU1 "u1" demoStore demoStore.users).store ≠ demoStore := by
  decide

/-! ## Claim C1: deletion ordering -/

/-- The deletion ordering claimed by the specification for a captured trace:
every message deletion precedes the deletion of the flat the message
references and the deletion of the user, and every flat deletion precedes the
user deletion. -/
def specDeletionOrdering (s : Store) (userId : String) (tr : List Op) : Prop :=
  (∀ i j : Fin tr.length, ∀ m ∈ s.messages,
      tr.get i = Op.deleteMsg m.id → tr.get j = Op.deleteFlat m.flatID →
      (i : ℕ) < (j : ℕ)) ∧
  (∀ i j : Fin tr.length,
      isDeleteMsg (tr.get i) = true → tr.get j = Op.deleteUser userId →
      (i : ℕ) < (j : ℕ)) ∧
  (∀ i j : Fin tr.length,
      isDeleteFlat (tr.get i) = true → tr.get j = Op.deleteUser userId →
      (i : ℕ) < (j : ℕ))

instance (s : Store) (userId : String) (tr : List Op) :
    Decidable (specDeletionOrdering s userId tr) := by
  unfold specDeletionOrdering
  infer_instance

/-- **C1 (counterexample).** On the specification's own example scenario, with
every operation succeeding, the captured trace violates the claimed ordering:
the user is deleted first, before any message or flat deletion. -/
theorem removeUser_order_violated :
    ¬ specDeletionOrdering demoStore "u1"
        (handleRemoveUser noFault "u1" demoStore demoStore.users).trace := by
  decide

/-- **C1 (amended).** In every execution of the cascade the user deletion is
the very first operation issued; among the remaining deletions the spec's
ordering survives: every message deletion precedes every flat deletion (the
trace splits into a flat-deletion-free prefix and a message-deletion-free
suffix). -/
theorem removeUser_user_first_msgs_before_flats (fault : Op → Bool) (userId : String)
    (s : Store) (localUsers : List UserDoc) :
    (handleRemoveUser fault userId s localUsers).trace.head? =
        some (Op.deleteUser userId) ∧
    ∃ pre post, (handleRemoveUser fault userId s localUsers).trace = pre ++ post ∧
      (∀ op ∈ pre, isDeleteFlat op = false) ∧
      (∀ op ∈ post, isDeleteMsg op = false) := by
  by_cases h1 : fault (Op.deleteUser userId) = true
  · have htr : (handleRemoveUser fault userId s localUsers).trace =
        [Op.deleteUser userId] := by simp [handleRemoveUser, h1]
    refine ⟨by rw [htr]; rfl, [Op.deleteUser userId], [], by rw [htr]; rfl, ?_, by simp⟩
    intro op hop
    obtain rfl := List.mem_singleton.mp hop
    rfl
  by_cases h2 : fault (Op.queryMsgsBySender userId) = true
  · have htr : (handleRemoveUser fault userId s localUsers).trace =
        [Op.deleteUser userId, Op.queryMsgsBySender userId] := by
      simp [handleRemoveUser, h1, h2]
    refine ⟨by rw [htr]; rfl, [Op.deleteUser userId, Op.queryMsgsBySender userId], [],
      by rw [htr]; rfl, ?_, by simp⟩
    intro op hop
    rcases List.mem_cons.mp hop with rfl | hop
    · rfl
    · obtain rfl := List.mem_singleton.mp hop
      rfl
  by_cases hb2 : (batchDeleteMsgs fault
      (List.map (fun m => m.id) (List.filter (fun m => m.senderId == userId) s.messages))
      s.messages).ok = true
  rotate_left
  · have htr : (handleRemoveUser fault userId s localUsers).trace =
        Op.deleteUser userId :: Op.queryMsgsBySender userId ::
          (batchDeleteMsgs fault
            (List.map (fun m => m.id)
              (List.filter (fun m => m.senderId == userId) s.messages))
            s.messages).ops := by
      simp [handleRemoveUser, h1, h2, hb2]
    refine ⟨by rw [htr]; rfl, _, [], by rw [htr, List.append_nil], ?_, by simp⟩
    intro op hop
    rcases List.mem_cons.mp hop with rfl | hop
    · rfl
    rcases List.mem_cons.mp hop with rfl | hop
    · rfl
    · exact batchDeleteMsgs_ops_not_flat op hop
  by_cases h3 : fault (Op.queryFlatsByOwner userId) = true
  · have htr : (handleRemoveUser fault userId s localUsers).trace =
        Op.deleteUser userId :: Op.queryMsgsBySender userId ::
          ((batchDeleteMsgs fault
            (List.map (fun m => m.id)
              (List.filter (fun m => m.senderId == userId) s.messages))
            s.messages).ops ++ [Op.queryFlatsByOwner userId]) := by
      simp [handleRemoveUser, h1, h2, hb2, h3]
    refine ⟨by rw [htr]; rfl, _, [], by rw [htr, List.append_nil], ?_, by simp⟩
    intro op hop
    rcases List.mem_cons.mp hop with rfl | hop
    · rfl
    rcases List.mem_cons.mp hop with rfl | hop
    · rfl
    rcases List.mem_append.mp hop with hop | hop
    · exact batchDeleteMsgs_ops_not_flat op hop
    · obtain rfl := List.mem_singleton.mp hop
      rfl
  by_cases hr3 : (deleteFlatMessages fault
      (List.map (fun f => f.id) (List.filter (fun f => f.ownerID == userId) s.flats))
      (batchDeleteMsgs fault
        (List.map (fun m => m.id)
          (List.filter (fun m => m.senderId == userId) s.messages))
        s.messages).docs).ok = true
  rotate_left
  · have htr : (handleRemoveUser fault userId s localUsers).trace =
        Op.deleteUser userId :: Op.queryMsgsBySender userId ::
          ((batchDeleteMsgs fault
            (List.map (fun m => m.id)
              (List.filter (fun m => m.senderId == userId) s.messages))
            s.messages).ops ++ Op.queryFlatsByOwner userId ::
              (deleteFlatMessages fault
                (List.map (fun f => f.id)
                  (List.filter (fun f => f.ownerID == userId) s.flats))
                (batchDeleteMsgs fault
                  (List.map (fun m => m.id)
                    (List.filter (fun m => m.senderId == userId) s.messages))
                  s.messages).docs).ops) := by
      simp [handleRemoveUser, h1, h2, hb2, h3, hr3]
    refine ⟨by rw [htr]; rfl, _, [], by rw [htr, List.append_nil], ?_, by simp⟩
    intro op hop
    rcases List.mem_cons.mp hop with rfl | hop
    · rfl
    rcases List.mem_cons.mp hop with rfl | hop
    · rfl
    rcases List.mem_append.mp hop with hop | hop
    · exact batchDeleteMsgs_ops_not_flat op hop
    rcases List.mem_cons.mp hop with rfl | hop
    · rfl
    · exact deleteFlatMessages_ops_not_flat _ _ op hop
  · have htr : (handleRemoveUser fault userId s localUsers).trace =
        (Op.deleteUser userId :: Op.queryMsgsBySender userId ::
          ((batchDeleteMsgs fault
            (List.map (fun m => m.id)
              (List.filter (fun m => m.senderId == userId) s.messages))
            s.messages).ops ++ Op.queryFlatsByOwner userId ::
              (deleteFlatMessages fault
                (List.map (fun f => f.id)
                  (List.filter (fun f => f.ownerID == userId) s.flats))
                (batchDeleteMsgs fault
                  (List.map (fun m => m.id)
                    (List.filter (fun m => m.senderId == userId) s.messages))
                  s.messages).docs).ops)) ++
          (batchDeleteFlats fault
            (List.map (fun f => f.id) (List.filter (fun f => f.ownerID == userId) s.flats))
            s.flats).ops := by
      by_cases hb4 : (batchDeleteFlats fault
          (List.map (fun f => f.id) (List.filter (fun f => f.ownerID == userId) s.flats))
          s.flats).ok = true <;>
        simp [handleRemoveUser, h1, h2, hb2, h3, hr3, hb4]
    refine ⟨?_, _, _, htr, ?_, batchDeleteFlats_ops_not_msg⟩
    · rw [htr]; rfl
    intro op hop
    rcases List.mem_cons.mp hop with rfl | hop
    · rfl
    rcases List.mem_cons.mp hop with rfl | hop
    · rfl
    rcases List.mem_append.mp hop with hop | hop
    · exact batchDeleteMsgs_ops_not_flat op hop
    rcases List.mem_cons.mp hop with rfl | hop
    · rfl
    · exact deleteFlatMessages_ops_not_flat _ _ op hop

/-! ## Claim C3: partial-failure containment -/

/-- **C3 (amended).** When the sender-message batch fails, the run reports
failure, every message in the snapshot still had its deletion issued (siblings
are attempted), no flat deletion is attempted, and the cached view is left
unchanged — but the user document was already deleted at step 1, so the
outcome cannot report the user as not deleted. -/
theorem removeUser_partial_failure_containment (fault : Op → Bool) (userId : String)
    (s : Store) (localUsers : List UserDoc)
    (h1 : fault (Op.deleteUser userId) = false)
    (h2 : fault (Op.queryMsgsBySender userId) = false)
    (hb2 : (batchDeleteMsgs fault
      (List.map (fun m => m.id) (List.filter (fun m => m.senderId == userId) s.messages))
      s.messages).ok = false) :
    (handleRemoveUser fault userId s localUsers).success = false ∧
    (∀ m ∈ s.messages, m.senderId = userId →
      Op.deleteMsg m.id ∈ (handleRemoveUser fault userId s localUsers).trace) ∧
    (∀ op ∈ (handleRemoveUser fault userId s localUsers).trace,
      isDeleteFlat op = false) ∧
    (∀ u ∈ (handleRemoveUser fault userId s localUsers).store.users, u.id ≠ userId) ∧
    (handleRemoveUser fault userId s localUsers).localUsers = localUsers := by
  have hrun : handleRemoveUser fault userId s localUsers =
      ⟨⟨s.users.filter (fun u => u.id != userId), s.flats,
          (batchDeleteMsgs fault
            (List.map (fun m => m.id)
              (List.filter (fun m => m.senderId == userId) s.messages))
            s.messages).docs⟩,
        Op.deleteUser userId :: Op.queryMsgsBySender userId ::
          (batchDeleteMsgs fault
            (List.map (fun m => m.id)
              (List.filter (fun m => m.senderId == userId) s.messages))
            s.messages).ops,
        localUsers, false⟩ := by
    simp [handleRemoveUser, h1, h2, hb2]
  rw [hrun]
  refine ⟨rfl, ?_, ?_, ?_, rfl⟩
  · intro m hm hsender
    simp only [batchDeleteMsgs, List.mem_cons]
    refine Or.inr (Or.inr ?_)
    exact List.mem_map.mpr ⟨m.id,
      List.mem_map.mpr ⟨m, List.mem_filter.mpr ⟨hm, by simp [hsender]⟩, rfl⟩, rfl⟩
  · intro op hop
    rcases List.mem_cons.mp hop with rfl | hop
    · rfl
    rcases List.mem_cons.mp hop with rfl | hop
    · rfl
    · exact batchDeleteMsgs_ops_not_flat op hop
  · intro u hu
    have := List.of_mem_filter hu
    simpa using this

/-- The fault oracle that fails exactly the deletion of message `m1`. -/
def msgFaultM1 : Op → Bool := fun op => op == Op.deleteMsg "m1"

/-- Witness for the amended C3: on the example store, failing only the
deletion of `m1` exhibits every conjunct of the amended claim. -/
theorem removeUser_partial_failure_containment_witness :
    (handleRemoveUser msgFaultM1 "u1" demoStore demoStore.users).success = false ∧
    (∀ m ∈ demoStore.messages, m.senderId = "u1" →
      Op.deleteMsg m.id ∈ (handleRemoveUser msgFaultM1 "u1" demoStore demoStore.users).trace) ∧
    (∀ op ∈ (handleRemoveUser msgFaultM1 "u1" demoStore demoStore.users).trace,
      isDeleteFlat op = false) ∧
    (∀ u ∈ (handleRemoveUser msgFaultM1 "u1" demoStore demoStore.users).store.users,
      u.id ≠ "u1") ∧
    (handleRemoveUser msgFaultM1 "u1" demoStore demoStore.users).localUsers =
      demoStore.users :=
  removeUser_partial_failure_containment msgFaultM1 "u1" demoStore demoStore.users
    (by decide) (by decide) (by decide)

/-- **C3 (counterexample).** A deletion failure occurred (the run reports
failure), yet the user-deletion was attempted — it is in the trace — and the
user document is in fact gone from the store, so the outcome cannot honestly
report `userDeleted = false`. -/
theorem removeUser_failure_but_user_deleted :
    (handleRemoveUser msgFaultM1 "u1" demoStore demoStore.users).success = false ∧
    Op.deleteUser "u1" ∈ (handleRemoveUser msgFaultM1 "u1" demoStore demoStore.users).trace ∧
    (handleRemoveUser msgFaultM1 "u1" demoStore demoStore.users).store.users.filter
      (fun u => u.id == "u1") = [] := by
  decide

/-! ## Claim C4: no orphans after success -/

lemma handleRemoveUser_success_filters (fault : Op → Bool) (userId : String)
    (s : Store) (localUsers : List UserDoc)
    (h : (handleRemoveUser fault userId s localUsers).success = true) :
    ((handleRemoveUser fault userId s localUsers).store.messages.filter
      (fun m => m.senderId == userId)) = [] ∧
    ((handleRemoveUser fault userId s localUsers).store.flats.filter
      (fun f => f.ownerID == userId)) = [] ∧
    ∀ f ∈ s.flats, f.ownerID = userId →
      ((handleRemoveUser fault userId s localUsers).store.messages.filter
        (fun m => m.flatID == f.id)) = [] := by
  by_cases h1 : fault (Op.deleteUser userId) = true
  · simp [handleRemoveUser, h1] at h
  by_cases h2 : fault (Op.queryMsgsBySender userId) = true
  · simp [handleRemoveUser, h1, h2] at h
  by_cases hb2 : (batchDeleteMsgs fault (List.map (fun m => m.id)
      (List.filter (fun m => m.senderId == userId) s.messages)) s.messages).ok = true
  rotate_left
  · simp [handleRemoveUser, h1, h2, hb2] at h
  by_cases h3 : fault (Op.queryFlatsByOwner userId) = true
  · simp [handleRemoveUser, h1, h2, hb2, h3] at h
  by_cases hr3 : (deleteFlatMessages fault (List.map (fun f => f.id)
      (List.filter (fun f => f.ownerID == userId) s.flats))
      (batchDeleteMsgs fault (List.map (fun m => m.id)
        (List.filter (fun m => m.senderId == userId) s.messages)) s.messages).docs).ok = true
  rotate_left
  · simp [handleRemoveUser, h1, h2, hb2, h3, hr3] at h
  by_cases hb4 : (batchDeleteFlats fault (List.map (fun f => f.id)
      (List.filter (fun f => f.ownerID == userId) s.flats)) s.flats).ok = true
  rotate_left
  · simp [handleRemoveUser, h1, h2, hb2, h3, hr3, hb4] at h
  have hst : (handleRemoveUser fault userId s localUsers).store =
      ⟨s.users.filter (fun u => u.id != userId),
       (batchDeleteFlats fault (List.map (fun f => f.id)
         (List.filter (fun f => f.ownerID == userId) s.flats)) s.flats).docs,
       (deleteFlatMessages fault (List.map (fun f => f.id)
         (List.filter (fun f => f.ownerID == userId) s.flats))
         (batchDeleteMsgs fault (List.map (fun m => m.id)
           (List.filter (fun m => m.senderId == userId) s.messages))
           s.messages).docs).docs⟩ := by
    simp [handleRemoveUser, h1, h2, hb2, h3, hr3, hb4]
  rw [hst]
  refine ⟨?_, ?_, ?_⟩
  · rw [List.filter_eq_nil_iff]
    intro m hm
    have hmb : m ∈ (batchDeleteMsgs fault (List.map (fun m => m.id)
        (List.filter (fun m => m.senderId == userId) s.messages)) s.messages).docs :=
      deleteFlatMessages_docs_subset _ _ m hm
    have hid := batchDeleteMsgs_ok_id_not_mem hb2 hmb
    have hms : m ∈ s.messages := mem_of_mem_batchDeleteMsgs hmb
    intro heq
    exact hid (List.mem_map.mpr ⟨m, List.mem_filter.mpr ⟨hms, heq⟩, rfl⟩)
  · rw [List.filter_eq_nil_iff]
    intro f hf
    have hid := batchDeleteFlats_ok_id_not_mem hb4 hf
    have hfs : f ∈ s.flats := mem_of_mem_batchDeleteFlats hf
    intro heq
    exact hid (List.mem_map.mpr ⟨f, List.mem_filter.mpr ⟨hfs, heq⟩, rfl⟩)
  · intro f hf howner
    rw [List.filter_eq_nil_iff]
    intro m hm
    have hnf := deleteFlatMessages_ok_flat_not_mem _ _ m hr3 hm
    intro heq
    have heq2 : m.flatID = f.id := by simpa using heq
    refine hnf ?_
    rw [heq2]
    exact List.mem_map.mpr ⟨f, List.mem_filter.mpr ⟨hf, by simp [howner]⟩, rfl⟩

/-- **C4.** After a successful cascade, the store holds no message sent by the
removed user, no flat owned by them, and no message referencing any formerly
owned flat: the corresponding equality queries all return empty sets. -/
theorem removeUser_success_no_orphans (fault : Op → Bool) (userId : String)
    (s : Store) (localUsers : List UserDoc)
    (h : (handleRemoveUser fault userId s localUsers).success = true) :
    ((handleRemoveUser fault userId s localUsers).store.messages.filter
      (fun m => m.senderId == userId)) = [] ∧
    ((handleRemoveUser fault userId s localUsers).store.flats.filter
      (fun f => f.ownerID == userId)) = [] ∧
    ∀ f ∈ s.flats, f.ownerID = userId →
      ((handleRemoveUser fault userId s localUsers).store.messages.filter
        (fun m => m.flatID == f.id)) = [] :=
  handleRemoveUser_success_filters fault userId s localUsers h

/-- Witness for C4 at the example store with no faults. -/
theorem removeUser_success_no_orphans_witness :
    ((handleRemoveUser noFault "u1" demoStore demoStore.users).store.messages.filter
      (fun m => m.senderId == "u1")) = [] ∧
    ((handleRemoveUser noFault "u1" demoStore demoStore.users).store.flats.filter
      (fun f => f.ownerID == "u1")) = [] ∧
    ∀ f ∈ demoStore.flats, f.ownerID = "u1" →
      ((handleRemoveUser noFault "u1" demoStore demoStore.users).store.messages.filter
        (fun m => m.flatID == f.id)) = [] :=
  removeUser_success_no_orphans noFault "u1" demoStore demoStore.users (by decide)

/-! ## Claim C5: idempotence under the fault-free model -/

lemma batchDeleteMsgs_noFault_ok (ids : List String) (msgs : List MsgDoc) :
    (batchDeleteMsgs noFault ids msgs).ok = true := by
  simp [batchDeleteMsgs, noFault]

lemma batchDeleteFlats_noFault_ok (ids : List String) (flats : List FlatDoc) :
    (batchDeleteFlats noFault ids flats).ok = true := by
  simp [batchDeleteFlats, noFault]

lemma deleteFlatMessages_noFault_ok :
    ∀ (fids : List String) (msgs : List MsgDoc),
      (deleteFlatMessages noFault fids msgs).ok = true := by
  intro fids
  induction fids with
  | nil => intro msgs; rfl
  | cons fid rest ih =>
    intro msgs
    simp [deleteFlatMessages, noFault, batchDeleteMsgs_noFault_ok, ih]

lemma handleRemoveUser_noFault_success (userId : String) (s : Store)
    (localUsers : List UserDoc) :
    (handleRemoveUser noFault userId s localUsers).success = true := by
  simp [handleRemoveUser, noFault, batchDeleteMsgs_noFault_ok,
    batchDeleteFlats_noFault_ok, deleteFlatMessages_noFault_ok]

lemma handleRemoveUser_noFault_users (userId : String) (s : Store)
    (localUsers : List UserDoc) :
    (handleRemoveUser noFault userId s localUsers).store.users =
      s.users.filter (fun u => u.id != userId) := by
  simp [handleRemoveUser, noFault, batchDeleteMsgs_noFault_ok,
    batchDeleteFlats_noFault_ok, deleteFlatMessages_noFault_ok]

lemma handleRemoveUser_noFault_flats (userId : String) (s : Store)
    (localUsers : List UserDoc) :
    (handleRemoveUser noFault userId s localUsers).store.flats =
      (batchDeleteFlats noFault
        (List.map (fun f => f.id) (List.filter (fun f => f.ownerID == userId) s.flats))
        s.flats).docs := by
  simp [handleRemoveUser, noFault, batchDeleteMsgs_noFault_ok,
    batchDeleteFlats_noFault_ok, deleteFlatMessages_noFault_ok]

lemma handleRemoveUser_noFault_messages (userId : String) (s : Store)
    (localUsers : List UserDoc) :
    (handleRemoveUser noFault userId s localUsers).store.messages =
      (deleteFlatMessages noFault
        (List.map (fun f => f.id) (List.filter (fun f => f.ownerID == userId) s.flats))
        (batchDeleteMsgs noFault
          (List.map (fun m => m.id)
            (List.filter (fun m => m.senderId == userId) s.messages))
          s.messages).docs).docs := by
  simp [handleRemoveUser, noFault, batchDeleteMsgs_noFault_ok,
    batchDeleteFlats_noFault_ok, deleteFlatMessages_noFault_ok]

lemma handleRemoveUser_noFault_localUsers (userId : String) (s : Store)
    (localUsers : List UserDoc) :
    (handleRemoveUser noFault userId s localUsers).localUsers =
      localUsers.filter (fun u => u.id != userId) := by
  simp [handleRemoveUser, noFault, batchDeleteMsgs_noFault_ok,
    batchDeleteFlats_noFault_ok, deleteFlatMessages_noFault_ok]

lemma batchDeleteMsgs_nil_docs (fault : Op → Bool) (msgs : List MsgDoc) :
    (batchDeleteMsgs fault [] msgs).docs = msgs := by
  simp [batchDeleteMsgs]

lemma batchDeleteFlats_nil_docs (fault : Op → Bool) (flats : List FlatDoc) :
    (batchDeleteFlats fault [] flats).docs = flats := by
  simp [batchDeleteFlats]

lemma filter_idem {α : Type} (p : α → Bool) (l : List α) :
    (l.filter p).filter p = l.filter p := by
  rw [List.filter_filter]
  simp

lemma store_eq_of_fields {t u : Store} (h1 : t.users = u.users)
    (h2 : t.flats = u.flats) (h3 : t.messages = u.messages) : t = u := by
  cases t
  cases u
  simp_all

/-- **C5.** In the fault-free model — where deleting an already-absent document
is a no-op success — running the cascade twice in sequence succeeds both times
and leaves the store (and the cached user view) exactly as running it once. -/
theorem removeUser_idempotent (userId : String) (s : Store)
    (localUsers : List UserDoc) :
    (handleRemoveUser noFault userId s localUsers).success = true ∧
    (handleRemoveUser noFault userId (handleRemoveUser noFault userId s localUsers).store
      (handleRemoveUser noFault userId s localUsers).localUsers).success = true ∧
    (handleRemoveUser noFault userId (handleRemoveUser noFault userId s localUsers).store
      (handleRemoveUser noFault userId s localUsers).localUsers).store =
      (handleRemoveUser noFault userId s localUsers).store ∧
    (handleRemoveUser noFault userId (handleRemoveUser noFault userId s localUsers).store
      (handleRemoveUser noFault userId s localUsers).localUsers).localUsers =
      (handleRemoveUser noFault userId s localUsers).localUsers := by
  obtain ⟨hm, hf, -⟩ := handleRemoveUser_success_filters noFault userId s localUsers
    (handleRemoveUser_noFault_success userId s localUsers)
  refine ⟨handleRemoveUser_noFault_success userId s localUsers,
    handleRemoveUser_noFault_success userId _ _, ?_, ?_⟩
  · apply store_eq_of_fields
    · simp only [handleRemoveUser_noFault_users, filter_idem]
    · rw [handleRemoveUser_noFault_flats, hf]
      simp [batchDeleteFlats_nil_docs]
    · rw [handleRemoveUser_noFault_messages, hm, hf]
      simp [batchDeleteMsgs_nil_docs, deleteFlatMessages]
  · simp only [handleRemoveUser_noFault_localUsers, filter_idem]

/-! ## Claim C6: a doubly-dependent message is deleted exactly once -/

lemma batchDeleteFlats_not_mem_deleteMsg {fault : Op → Bool} {ids : List String}
    {flats : List FlatDoc} {x : String} :
    Op.deleteMsg x ∉ (batchDeleteFlats fault ids flats).ops := by
  intro h
  simp only [batchDeleteFlats, List.mem_map] at h
  obtain ⟨y, _, hy⟩ := h
  exact Op.noConfusion hy

lemma deleteFlatMessages_not_mem_deleteMsg {fault : Op → Bool} {x : String} :
    ∀ (fids : List String) (msgs : List MsgDoc),
      x ∉ msgs.map (fun m => m.id) →
      Op.deleteMsg x ∉ (deleteFlatMessages fault fids msgs).ops := by
  intro fids
  induction fids with
  | nil => intro msgs hx h; simp [deleteFlatMessages] at h
  | cons fid rest ih =>
    intro msgs hx h
    by_cases hq : fault (Op.queryMsgsByFlat fid) = true
    · simp [deleteFlatMessages, hq] at h
    · by_cases hb : (batchDeleteMsgs fault
          ((msgs.filter fun m => m.flatID == fid).map fun m => m.id) msgs).ok = true
      · simp only [deleteFlatMessages, hq, hb, if_true, if_false, Bool.false_eq_true,
          List.mem_cons] at h
        rcases h with h | h
        · exact Op.noConfusion h
        rcases List.mem_append.mp h with h | h
        · simp only [batchDeleteMsgs, List.mem_map] at h
          obtain ⟨y, hy, hxy⟩ := h
          obtain rfl : y = x := by injection hxy
          obtain ⟨mm, hmm, rfl⟩ := hy
          exact hx (List.mem_map.mpr ⟨mm, List.mem_of_mem_filter hmm, rfl⟩)
        · refine ih _ ?_ h
          intro hxb
          obtain ⟨mm, hmm, rfl⟩ := List.mem_map.mp hxb
          exact hx (List.mem_map.mpr ⟨mm, mem_of_mem_batchDeleteMsgs hmm, rfl⟩)
      · simp only [deleteFlatMessages, hq, hb, if_true, if_false, Bool.false_eq_true,
          List.mem_cons] at h
        rcases h with h | h
        · exact Op.noConfusion h
        · simp only [batchDeleteMsgs, List.mem_map] at h
          obtain ⟨y, hy, hxy⟩ := h
          obtain rfl : y = x := by injection hxy
          obtain ⟨mm, hmm, rfl⟩ := hy
          exact hx (List.mem_map.mpr ⟨mm, List.mem_of_mem_filter hmm, rfl⟩)

/-- **C6.** A message sent by the target user whose flat is also owned by the
target user has exactly one deletion issued for it in the whole cascade: it is
deleted in the sender stage, and the later per-flat queries run against the
already-updated store, so no duplicate delete is attempted.  Requires document
ids in the `messages` collection to be distinct (store-assigned ids) and the
run to reach the sender stage. -/
theorem removeUser_dedup_single_delete (fault : Op → Bool) (userId : String)
    (s : Store) (localUsers : List UserDoc) (m : MsgDoc)
    (hnd : (s.messages.map (fun m => m.id)).Nodup)
    (h1 : fault (Op.deleteUser userId) = false)
    (h2 : fault (Op.queryMsgsBySender userId) = false)
    (hm : m ∈ s.messages) (hsender : m.senderId = userId)
    (_hflat : ∃ f ∈ s.flats, f.ownerID = userId ∧ m.flatID = f.id) :
    (handleRemoveUser fault userId s localUsers).trace.count (Op.deleteMsg m.id) = 1 := by
  have hinj : Function.Injective Op.deleteMsg := fun a b h => by injection h
  have hmemIds : m.id ∈ List.map (fun m => m.id)
      (List.filter (fun m => m.senderId == userId) s.messages) :=
    List.mem_map.mpr ⟨m, List.mem_filter.mpr ⟨hm, by simp [hsender]⟩, rfl⟩
  have hndIds : (List.map (fun m => m.id)
      (List.filter (fun m => m.senderId == userId) s.messages)).Nodup :=
    List.Nodup.sublist (List.Sublist.map _ (List.filter_sublist _)) hnd
  have hops : ((batchDeleteMsgs fault
      (List.map (fun m => m.id) (List.filter (fun m => m.senderId == userId) s.messages))
      s.messages).ops).count (Op.deleteMsg m.id) = 1 := by
    simp only [batchDeleteMsgs]
    rw [List.count_map_of_injective _ _ hinj]
    exact List.count_eq_one_of_mem hndIds hmemIds
  by_cases hb2 : (batchDeleteMsgs fault (List.map (fun m => m.id)
      (List.filter (fun m => m.senderId == userId) s.messages)) s.messages).ok = true
  rotate_left
  · have htr : (handleRemoveUser fault userId s localUsers).trace =
        Op.deleteUser userId :: Op.queryMsgsBySender userId ::
          (batchDeleteMsgs fault (List.map (fun m => m.id)
            (List.filter (fun m => m.senderId == userId) s.messages)) s.messages).ops := by
      simp [handleRemoveUser, h1, h2, hb2]
    rw [htr, List.count_cons, List.count_cons, hops]
    rfl
  have hx : m.id ∉ List.map (fun m => m.id) (batchDeleteMsgs fault
      (List.map (fun m => m.id) (List.filter (fun m => m.senderId == userId) s.messages))
      s.messages).docs := by
    intro hmem
    obtain ⟨mm, hmm, heq⟩ := List.mem_map.mp hmem
    have hni := batchDeleteMsgs_ok_id_not_mem hb2 hmm
    rw [heq] at hni
    exact hni hmemIds
  by_cases h3 : fault (Op.queryFlatsByOwner userId) = true
  · have htr : (handleRemoveUser fault userId s localUsers).trace =
        Op.deleteUser userId :: Op.queryMsgsBySender userId ::
          ((batchDeleteMsgs fault (List.map (fun m => m.id)
            (List.filter (fun m => m.senderId == userId) s.messages)) s.messages).ops ++
            [Op.queryFlatsByOwner userId]) := by
      simp [handleRemoveUser, h1, h2, hb2, h3]
    rw [htr, List.count_cons, List.count_cons, List.count_append, hops]
    rfl
  have hc3 : ((deleteFlatMessages fault
      (List.map (fun f => f.id) (List.filter (fun f => f.ownerID == userId) s.flats))
      (batchDeleteMsgs fault (List.map (fun m => m.id)
        (List.filter (fun m => m.senderId == userId) s.messages))
        s.messages).docs).ops).count (Op.deleteMsg m.id) = 0 :=
    List.count_eq_zero.mpr (deleteFlatMessages_not_mem_deleteMsg _ _ hx)
  by_cases hr3 : (deleteFlatMessages fault
      (List.map (fun f => f.id) (List.filter (fun f => f.ownerID == userId) s.flats))
      (batchDeleteMsgs fault (List.map (fun m => m.id)
        (List.filter (fun m => m.senderId == userId) s.messages))
        s.messages).docs).ok = true
  rotate_left
  · have htr : (handleRemoveUser fault userId s localUsers).trace =
        Op.deleteUser userId :: Op.queryMsgsBySender userId ::
          ((batchDeleteMsgs fault (List.map (fun m => m.id)
            (List.filter (fun m => m.senderId == userId) s.messages)) s.messages).ops ++
            Op.queryFlatsByOwner userId ::
              (deleteFlatMessages fault
                (List.map (fun f => f.id)
                  (List.filter (fun f => f.ownerID == userId) s.flats))
                (batchDeleteMsgs fault (List.map (fun m => m.id)
                  (List.filter (fun m => m.senderId == userId) s.messages))
                  s.messages).docs).ops) := by
      simp [handleRemoveUser, h1, h2, hb2, h3, hr3]
    rw [htr, List.count_cons, List.count_cons, List.count_append, List.count_cons, hops, hc3]
    rfl
  have hc4 : ((batchDeleteFlats fault
      (List.map (fun f => f.id) (List.filter (fun f => f.ownerID == userId) s.flats))
      s.flats).ops).count (Op.deleteMsg m.id) = 0 :=
    List.count_eq_zero.mpr batchDeleteFlats_not_mem_deleteMsg
  have htr : (handleRemoveUser fault userId s localUsers).trace =
      Op.deleteUser userId :: Op.queryMsgsBySender userId ::
        ((batchDeleteMsgs fault (List.map (fun m => m.id)
          (List.filter (fun m => m.senderId == userId) s.messages)) s.messages).ops ++
          Op.queryFlatsByOwner userId ::
            ((deleteFlatMessages fault
              (List.map (fun f => f.id)
                (List.filter (fun f => f.ownerID == userId) s.flats))
              (batchDeleteMsgs fault (List.map (fun m => m.id)
                (List.filter (fun m => m.senderId == userId) s.messages))
                s.messages).docs).ops ++
              (batchDeleteFlats fault
                (List.map (fun f => f.id)
                  (List.filter (fun f => f.ownerID == userId) s.flats))
                s.flats).ops)) := by
    by_cases hb4 : (batchDeleteFlats fault
        (List.map (fun f => f.id) (List.filter (fun f => f.ownerID == userId) s.flats))
        s.flats).ok = true <;>
      simp [handleRemoveUser, h1, h2, hb2, h3, hr3, hb4]
  rw [htr, List.count_cons, List.count_cons, List.count_append, List.count_cons,
    List.count_append, hops, hc3, hc4]
  rfl

/-- Witness for C6: on the example store, message `m3` is sent by `u1` and
attached to flat `f1` owned by `u1`, and exactly one deletion is issued. -/
theorem removeUser_dedup_single_delete_witness :
    (handleRemoveUser noFault "u1" demoStore demoStore.users).trace.count
      (Op.deleteMsg "m3") = 1 :=
  removeUser_dedup_single_delete noFault "u1" demoStore demoStore.users
    ⟨"m3", "u1", "f1"⟩ (by decide) (by decide) (by decide) (by decide) rfl
    ⟨⟨"f1", "u1"⟩, by decide, rfl, rfl⟩

/-! ## Claim C8: login does not reveal whether an account exists -/

/-- **C8.** For two well-formed login attempts — one whose email matches a
stored account but whose password differs from the stored one, and one whose
email matches no account at all — `loginAction` returns the identical value,
the single general error `Invalid credentials.`, so the response does not
reveal whether an account with that email exists. -/
theorem loginAction_no_account_probe (users : List UserDoc)
    (e1 p1 e2 p2 : String) (u : UserDoc)
    (he1 : emailError e1 = none) (hp1 : passwordError p1 = none)
    (he2 : emailError e2 = none) (hp2 : passwordError p2 = none)
    (hfound : users.find? (fun v => v.email == e1) = some u)
    (hpw : u.password ≠ p1)
    (hnone : users.find? (fun v => v.email == e2) = none) :
    loginAction false users e1 p1 = LoginResult.generalError "Invalid credentials." ∧
    loginAction false users e2 p2 = LoginResult.generalError "Invalid credentials." := by
  constructor
  · simp [loginAction, he1, hp1, hfound, hpw]
  · simp [loginAction, he2, hp2, hnone]

/-- The registered account used by the login and registration witnesses. -/
def demoRegUser : UserDoc :=
  ⟨"id1", "Alice", "Smith", "alice@mail.com", "Right1!a", "2000-01-01", [], false, 0⟩

/-- Witness for C8: a wrong-password attempt against `alice@mail.com` and an
attempt with the unregistered `bob@mail.com` yield the identical error. -/
theorem loginAction_no_account_probe_witness :
    loginAction false [demoRegUser] "alice@mail.com" "Wrong1!a" =
      LoginResult.generalError "Invalid credentials." ∧
    loginAction false [demoRegUser] "bob@mail.com" "Wrong1!a" =
      LoginResult.generalError "Invalid credentials." :=
  loginAction_no_account_probe [demoRegUser] "alice@mail.com" "Wrong1!a"
    "bob@mail.com" "Wrong1!a" demoRegUser (by decide) (by decide) (by decide)
    (by decide) (by decide) (by decide) (by decide)

/-! ## Claim C9: registration adds a document only on full validation -/

/-- **C9.** `registerAction` leaves the users collection unchanged whenever it
returns an error payload, and returns success only when every field validation
passed and no stored user has the submitted email; the document it then
appends carries `favoriteFlats = []` and `isAdmin = false`. -/
theorem registerAction_spec (ageOf : String → Option Int) (queryFault addFault : Bool)
    (users : List UserDoc) (inp : RegInput) (newId : String) (now : Nat) :
    (∀ e, (registerAction ageOf queryFault addFault users inp newId now).1 =
        RegisterResult.failure e →
      (registerAction ageOf queryFault addFault users inp newId now).2 = users) ∧
    ((registerAction ageOf queryFault addFault users inp newId now).1 =
        RegisterResult.ok →
      nameError inp.firstName "First name must be at least 2 characters." = none ∧
      nameError inp.lastName "Last name must be at least 2 characters." = none ∧
      emailError inp.email = none ∧
      passwordError inp.password = none ∧
      inp.password = inp.confirmPassword ∧
      birthDateError ageOf inp.birthDate = none ∧
      users.any (fun u => u.email == inp.email) = false ∧
      (registerAction ageOf queryFault addFault users inp newId now).2 =
        users ++ [⟨newId, inp.firstName, inp.lastName, inp.email, inp.password,
          inp.birthDate, [], false, now⟩]) := by
  by_cases hE : (regErrorsOf ageOf inp).isEmpty = true
  rotate_left
  · constructor
    · intro e _
      simp [registerAction, hE]
    · intro hok
      simp [registerAction, hE] at hok
  by_cases hq : queryFault = true
  · constructor
    · intro e _
      simp [registerAction, hE, hq]
    · intro hok
      simp [registerAction, hE, hq] at hok
  by_cases hdup : users.any (fun u => u.email == inp.email) = true
  · constructor
    · intro e _
      simp [registerAction, hE, hq, hdup]
    · intro hok
      simp [registerAction, hE, hq, hdup] at hok
  by_cases ha : addFault = true
  · constructor
    · intro e _
      simp [registerAction, hE, hq, hdup, ha]
    · intro hok
      simp [registerAction, hE, hq, hdup, ha] at hok
  constructor
  · intro e he
    simp [registerAction, hE, hq, hdup, ha] at he
  · intro _
    have hv := hE
    simp only [regErrorsOf, RegErrors.isEmpty, Bool.and_eq_true,
      Option.isNone_iff_eq_none] at hv
    obtain ⟨⟨⟨⟨⟨⟨h1, h2⟩, h3⟩, h4⟩, h5⟩, h6⟩, -⟩ := hv
    have hcp : inp.password = inp.confirmPassword := by
      by_cases hne : inp.password = inp.confirmPassword
      · exact hne
      · simp [hne] at h5
    refine ⟨h1, h2, h3, h4, hcp, h6, by simpa using hdup, ?_⟩
    simp [registerAction, hE, hq, hdup, ha]

/-- The age oracle used by the registration witness. -/
def demoAgeOf : String → Option Int := fun _ => some 25

/-- The valid registration input used by the witness. -/
def demoRegInput : RegInput :=
  ⟨"Alice", "Smith", "alice@mail.com", "Right1!a", "Right1!a", "2000-01-01"⟩

/-- Witness for C9: a fully valid registration against an empty collection
appends exactly one document with the default flags. -/
theorem registerAction_spec_witness :
    nameError "Alice" "First name must be at least 2 characters." = none ∧
    nameError "Smith" "Last name must be at least 2 characters." = none ∧
    emailError "alice@mail.com" = none ∧
    passwordError "Right1!a" = none ∧
    ("Right1!a" : String) = "Right1!a" ∧
    birthDateError demoAgeOf "2000-01-01" = none ∧
    List.any ([] : List UserDoc) (fun u => u.email == "alice@mail.com") = false ∧
    (registerAction demoAgeOf false false [] demoRegInput "id9" 5).2 =
      [] ++ [⟨"id9", "Alice", "Smith", "alice@mail.com", "Right1!a",
        "2000-01-01", [], false, 5⟩] :=
  (registerAction_spec demoAgeOf false false [] demoRegInput "id9" 5).2 (by decide)

/-! ## Claim C10: the flat document written on success -/

lemma streetNumberError_none {num : String → Option ℚ} {v : String}
    (h : streetNumberError num v = none) : ∃ q, num v = some q := by
  cases hq : num v with
  | none => simp [streetNumberError, hq] at h
  | some q => exact ⟨q, rfl⟩

lemma areaSizeError_none {num : String → Option ℚ} {v : String}
    (h : areaSizeError num v = none) : ∃ q, num v = some q ∧ 0 < q := by
  by_cases hv : (v == "") = true
  · simp [areaSizeError, hv] at h
  · cases hq : num v with
    | none => simp [areaSizeError, hv, hq] at h
    | some q =>
      refine ⟨q, rfl, ?_⟩
      by_cases hle : q ≤ 0
      · simp [areaSizeError, hv, hq, hle] at h
      · exact lt_of_not_le hle

lemma rentPriceError_none {num : String → Option ℚ} {v : String}
    (h : rentPriceError num v = none) : ∃ q, num v = some q ∧ 0 < q := by
  by_cases hv : (v == "") = true
  · simp [rentPriceError, hv] at h
  · cases hq : num v with
    | none => simp [rentPriceError, hv, hq] at h
    | some q =>
      refine ⟨q, rfl, ?_⟩
      by_cases hle : q ≤ 0
      · simp [rentPriceError, hv, hq, hle] at h
      · exact lt_of_not_le hle

lemma yearBuiltError_none {num : String → Option ℚ} {cy : ℚ} {v : String}
    (h : yearBuiltError num cy v = none) :
    ∃ q, num v = some q ∧ 1900 ≤ q ∧ q ≤ cy := by
  by_cases hv : (v == "") = true
  · simp [yearBuiltError, hv] at h
  · cases hq : num v with
    | none => simp [yearBuiltError, hv, hq] at h
    | some q =>
      by_cases hlt : q < 1900
      · simp [yearBuiltError, hv, hq, hlt] at h
      by_cases hgt : q > cy
      · simp [yearBuiltError, hv, hq, hlt, hgt] at h
      exact ⟨q, rfl, le_of_not_lt hlt, le_of_not_lt hgt⟩

/-- **C10.** Every flat document returned by a successful `newFlatAction` run
stores the `Number` coercions of the submitted numeric strings, carries the
logged-in user's id as `ownerID`, and satisfies the validated preconditions:
positive area size and rent price, and a build year between 1900 and the
current year. -/
theorem newFlatAction_success_shape (num : String → Option ℚ) (currentYear : ℚ)
    (dateInRange : String → Bool) (addFault : Bool) (userID : String)
    (inp : FlatInput) (now : Nat) (f : FlatData)
    (h : newFlatAction num currentYear dateInRange addFault userID inp now =
      NewFlatResult.ok f) :
    f.ownerID = userID ∧
    (∃ q, num inp.streetNumber = some q ∧ f.streetNumber = q) ∧
    (∃ q, num inp.areaSize = some q ∧ f.areaSize = q ∧ 0 < q) ∧
    (∃ q, num inp.rentPrice = some q ∧ f.rentPrice = q ∧ 0 < q) ∧
    (∃ q, num inp.yearBuilt = some q ∧ f.yearBuilt = q ∧ 1900 ≤ q ∧
      q ≤ currentYear) := by
  by_cases hE : (flatErrorsOf num currentYear dateInRange inp).isEmpty = true
  rotate_left
  · simp [newFlatAction, hE] at h
  by_cases ha : addFault = true
  · simp [newFlatAction, hE, ha] at h
  have hrun : newFlatAction num currentYear dateInRange addFault userID inp now =
      NewFlatResult.ok ⟨inp.adTitle, inp.city, inp.streetName,
        (num inp.streetNumber).getD 0, (num inp.areaSize).getD 0, inp.hasAC == "on",
        (num inp.yearBuilt).getD 0, (num inp.rentPrice).getD 0, inp.dateAvailable,
        inp.imageName, now, userID⟩ := by
    simp [newFlatAction, hE, ha]
  rw [hrun] at h
  injection h with hf
  subst hf
  have hv := hE
  simp only [flatErrorsOf, FlatErrors.isEmpty, Bool.and_eq_true,
    Option.isNone_iff_eq_none] at hv
  obtain ⟨⟨⟨⟨⟨⟨⟨⟨⟨hT, hC⟩, hS⟩, hN⟩, hA⟩, hY⟩, hR⟩, hD⟩, hI⟩, -⟩ := hv
  obtain ⟨qn, hqn⟩ := streetNumberError_none hN
  obtain ⟨qa, hqa, hqa0⟩ := areaSizeError_none hA
  obtain ⟨qr, hqr, hqr0⟩ := rentPriceError_none hR
  obtain ⟨qy, hqy, hqy1, hqy2⟩ := yearBuiltError_none hY
  refine ⟨rfl, ⟨qn, hqn, ?_⟩, ⟨qa, hqa, ?_, hqa0⟩, ⟨qr, hqr, ?_, hqr0⟩,
    ⟨qy, hqy, ?_, hqy1, hqy2⟩⟩ <;> simp [hqn, hqa, hqr, hqy]

/-- The table-based `Number` coercion used by the new-flat witness. -/
def demoNum : String → Option ℚ := fun v =>
  if v = "10" then some 10 else if v = "50" then some 50
  else if v = "2005" then some 2005 else if v = "300" then some 300 else none

/-- The valid new-flat submission used by the witness. -/
def demoFlatInput : FlatInput :=
  ⟨"Cozy flat", "Berlin", "Main St", "10", "50", "on", "2005", "300",
    "2026-01-01", "img.png"⟩

/-- The flat document the witness submission produces. -/
def demoFlatData : FlatData :=
  ⟨"Cozy flat", "Berlin", "Main St", 10, 50, true, 2005, 300, "2026-01-01",
    "img.png", 7, "u1"⟩

/-- Witness for C10 at a concrete valid submission. -/
theorem newFlatAction_success_shape_witness :
    demoFlatData.ownerID = "u1" ∧
    (∃ q, demoNum "10" = some q ∧ demoFlatData.streetNumber = q) ∧
    (∃ q, demoNum "50" = some q ∧ demoFlatData.areaSize = q ∧ 0 < q) ∧
    (∃ q, demoNum "300" = some q ∧ demoFlatData.rentPrice = q ∧ 0 < q) ∧
    (∃ q, demoNum "2005" = some q ∧ demoFlatData.yearBuilt = q ∧ 1900 ≤ q ∧
      q ≤ 2026) :=
  newFlatAction_success_shape demoNum 2026 (fun _ => true) false "u1"
    demoFlatInput 7 demoFlatData (by decide)

end RentEase
